import Mathlib

/-!
Shallow embedding of the generation-service layer of the repository:
the retry/backoff wrapper `generateWithRetry`, the failure classifiers
(the service-side rate-limit test and the UI-side quota test from
`handleApiError`), the code-fence output normalizer, and the prompt
builders of `bringToLife` / `refineCode`.

Machine-level JS details that the claims depend on are modelled
explicitly: the `||` truthiness fallback chains on numeric and string
fields, the anchored regex replacements, and the character class of the
virtual-path sanitizer.
-/

namespace HelloWorld

/-- JS `a || b` on a possibly-absent numeric field: `undefined`/`null` and
`0` are falsy and fall through to `b`. -/
def jsOrN : Option Nat → Option Nat → Option Nat
  | some n, b => if n = 0 then b else some n
  | none, b => b

/-- JS `a || b` on a possibly-absent string: `undefined`/`null` and the
empty string are falsy and fall through to `b`. -/
def jsOrStr : Option String → String → String
  | some s, b => if s = "" then b else s
  | none, b => b

/-- `String.toLowerCase()` as applied by the failure classifiers. -/
def lowerString (s : String) : String := String.mk (s.data.map Char.toLower)

/-- `haystack.includes(pat)` on character lists: `pat` occurs as a
contiguous infix. -/
def listHasSub (pat : List Char) : List Char → Bool
  | [] => pat.isEmpty
  | c :: cs => pat.isPrefixOf (c :: cs) || listHasSub pat cs

/-- `s.includes(pat)` for strings. -/
def strContains (s pat : String) : Bool := listHasSub pat.data s.data

/-- `s.endsWith(pat)` for strings. -/
def strEndsWith (s pat : String) : Bool := pat.data.isSuffixOf s.data

/-- The loosely-structured error value thrown by the remote call, with the
fields the code probes: `error.status`, `error.response.status`,
`error.error.code`, `error.message`, `error.error.message`, and the
`JSON.stringify(error)` rendering carried as an opaque string. -/
structure JsError where
  status : Option Nat
  responseStatus : Option Nat
  errorCode : Option Nat
  message : Option String
  errorMessage : Option String
  json : String
  deriving DecidableEq

/-- `error?.status || error?.response?.status || error?.error?.code`
(src/unnamed/part_000 line 52). -/
def effStatus (e : JsError) : Option Nat :=
  jsOrN (jsOrN e.status e.responseStatus) e.errorCode

/-- `(error?.message || JSON.stringify(error)).toLowerCase()`
(src/unnamed/part_000 line 53). -/
def serviceMessage (e : JsError) : String :=
  lowerString (jsOrStr e.message e.json)

/-- The transient-failure classifier of `generateWithRetry`
(src/unnamed/part_000 lines 55-60). -/
def isRateLimit (e : JsError) : Bool :=
  effStatus e == some 429 ||
  effStatus e == some 503 ||
  strContains (serviceMessage e) "429" ||
  strContains (serviceMessage e) "quota" ||
  strContains (serviceMessage e) "resource_exhausted"

/-- The message extracted by `handleApiError` in src/App.tsx
(`error.error.message`, else `error.message`, else `JSON.stringify`),
lowercased. -/
def appMessage (e : JsError) : String :=
  lowerString (jsOrStr e.errorMessage (jsOrStr e.message e.json))

/-- The quota classifier of `handleApiError` in src/App.tsx. -/
def isQuotaError (e : JsError) : Bool :=
  strContains (appMessage e) "429" ||
  strContains (appMessage e) "quota" ||
  strContains (appMessage e) "resource_exhausted" ||
  e.errorCode == some 429 ||
  e.status == some 429

/-- `generateWithRetry` (src/unnamed/part_000 lines 42-70, identical in
part_001). `op n` is the outcome of the `(n+1)`-th invocation of the
wrapped operation. The result records the value or final error, the number
of invocations performed, and the list of suspensions (in ms) in order.
A retry happens exactly when the caught error is classified transient and
`retries > 0`; it suspends for `delay` and recurses with `retries - 1` and
`delay * 2`. The source's single guard `isRateLimit && retries > 0` is
encoded by splitting on `retries`: with budget `0` every failure
propagates, with budget `r + 1` a transient failure retries. -/
def generateWithRetry {α : Type} (op : Nat → Except JsError α) :
    Nat → Nat → Nat → Except JsError α × Nat × List Nat
  | attempt, 0, _ =>
    match op attempt with
    | Except.ok v => (Except.ok v, 1, [])
    | Except.error e => (Except.error e, 1, [])
  | attempt, r + 1, delay =>
    match op attempt with
    | Except.ok v => (Except.ok v, 1, [])
    | Except.error e =>
      if isRateLimit e then
        let p := generateWithRetry op (attempt + 1) r (delay * 2)
        (p.1, p.2.1 + 1, delay :: p.2.2)
      else (Except.error e, 1, [])

/-- The JS regex class `\s` (whitespace) by code point, as used by the
`\s*` in the fence-stripping replacements. -/
def isJsSpace (c : Char) : Bool :=
  c.toNat == 32 || c.toNat == 9 || c.toNat == 10 || c.toNat == 13 ||
  c.toNat == 11 || c.toNat == 12 || c.toNat == 160 || c.toNat == 5760 ||
  (decide (8192 ≤ c.toNat) && decide (c.toNat ≤ 8202)) ||
  c.toNat == 8232 || c.toNat == 8233 || c.toNat == 8239 ||
  c.toNat == 8287 || c.toNat == 12288 || c.toNat == 65279

/-- `text.replace(/^marker\s*/, '')` for a literal marker: if the string
starts with the marker, remove it and the following run of whitespace. -/
def stripFenceStart (marker : String) (s : String) : String :=
  if marker.data.isPrefixOf s.data
  then String.mk ((s.data.drop marker.data.length).dropWhile isJsSpace)
  else s

/-- `text.replace(/```$/, '')`: if the string ends with three backticks,
remove exactly those three characters. -/
def stripFenceEnd (s : String) : String :=
  if "```".data.isSuffixOf s.data
  then String.mk (s.data.take (s.data.length - 3))
  else s

/-- The output normalizer applied to the raw model text
(src/unnamed/part_000 lines 104 and 145):
`text.replace(/^```html\s*/, '').replace(/^```\s*/, '').replace(/```$/, '')`. -/
def stripFences (s : String) : String :=
  stripFenceEnd (stripFenceStart "```" (stripFenceStart "```html" s))

/-- The fallback text used by `bringToLife` when the response text is
falsy (src/unnamed/part_000 line 103). -/
def failedPlaceholder : String := "<!-- Failed to generate content -->"

/-- The string `bringToLife` returns on a successful remote call, as a
function of the (possibly absent) `response.text`
(src/unnamed/part_000 lines 103-106):
`(response.text || placeholder)` then fence stripping. -/
def bringToLifeText (respText : Option String) : String :=
  stripFences (jsOrStr respText failedPlaceholder)

/-- The string `refineCode` returns on a successful remote call
(src/unnamed/part_000 lines 144-146):
`(response.text || currentHtml)` then fence stripping. -/
def refineCodeText (currentHtml : String) (respText : Option String) : String :=
  stripFences (jsOrStr respText currentHtml)

/-- Inline image attachment as sent by part_000's `bringToLife`. -/
structure ImagePart where
  data : String
  mimeType : String

/-- The text instruction built by part_000's `bringToLife`
(src/unnamed/part_000 lines 78-80). -/
def finalPrompt (prompt : String) (images : List ImagePart) : String :=
  if 0 < images.length then
    "Context: User uploaded an image. Voice Command: \"" ++
      (if prompt == "" then
        "Analyze this image and build a web interface based on it."
       else prompt) ++
      "\". Generate a web interface response."
  else
    "Voice Command: \"" ++ prompt ++
      "\". Generate the web interface for this request."

/-- An uploaded asset as consumed by part_001's `bringToLife`. -/
structure AssetFile where
  name : String
  mimeType : String
  data : String

/-- The character class kept by the sanitizer regex `[^a-zA-Z0-9.-]`
(src/unnamed/part_001 line 87): ASCII letters, digits, `.` and `-`. -/
def isAssetNameChar (c : Char) : Bool :=
  (decide (97 ≤ c.toNat) && decide (c.toNat ≤ 122)) ||
  (decide (65 ≤ c.toNat) && decide (c.toNat ≤ 90)) ||
  (decide (48 ≤ c.toNat) && decide (c.toNat ≤ 57)) ||
  c.toNat == 46 || c.toNat == 45

/-- `/assets/uploads/${asset.name.replace(/[^a-zA-Z0-9.-]/g, '_')}`
(src/unnamed/part_001 line 87): every disallowed character becomes `_`. -/
def virtualPath (name : String) : String :=
  "/assets/uploads/" ++
    String.mk (name.data.map (fun c => if isAssetNameChar c then c else '_'))

/-- One `--- ASSET n ---` block appended per attachment by part_001's
`bringToLife` (src/unnamed/part_001 lines 89-94). -/
def assetBlock (index : Nat) (a : AssetFile) : String :=
  ("\n--- ASSET " ++ toString (index + 1) ++ " ---\n" ++
   "Filename: " ++ a.name ++ "\n") ++
  ("Virtual Path: " ++ virtualPath a.name ++ "\n") ++
  ("MIME: " ++ a.mimeType ++ "\n" ++
   "DATA (Base64): data:" ++ a.mimeType ++ ";base64," ++ a.data ++ "\n") ++
  ("INSTRUCTION: Wherever the code would logically use \"" ++
   virtualPath a.name ++
   "\" (or if the user asked for this file), insert the DATA string above.\n")

/-- The `assets.forEach((asset, index) => ...)` accumulation of blocks. -/
def assetBlocks : Nat → List AssetFile → String
  | _, [] => ""
  | i, a :: rest => assetBlock i a ++ assetBlocks (i + 1) rest

/-- The full prompt constructed by part_001's `bringToLife`
(src/unnamed/part_001 lines 78-98). -/
def constructedPrompt (prompt : String) (assets : List AssetFile) : String :=
  (if 0 < assets.length then
    ("Voice Command: \"" ++
       (if prompt == "" then "Build a web interface based on these assets."
        else prompt) ++
       "\".") ++
      "\n\n[ATTACHED ASSETS DETECTED]\n" ++
      "The user has uploaded the following files. You must use them in the generated code.\n" ++
      "IMPORTANT: To make them work, you must use the BASE64 data provided below as the 'src'.\n" ++
      assetBlocks 0 assets
   else
    ("Voice Command: \"" ++
       (if prompt == "" then "Build a web interface based on these assets."
        else prompt) ++
       "\".")) ++
  "\nGenerate the fully functional HTML application now."

/-! ### Helper lemmas -/


set_option maxRecDepth 100000

theorem data_append (a b : String) : (a ++ b).data = a.data ++ b.data := rfl

theorem listHasSub_iff (pat l : List Char) :
    listHasSub pat l = true ↔ pat <:+: l := by
  induction l with
  | nil =>
    simp [listHasSub, List.isEmpty_iff, List.infix_nil]
  | cons c cs ih =>
    simp [listHasSub, List.infix_cons_iff, ih, List.isPrefixOf_iff_prefix]

theorem strContains_iff (s pat : String) :
    strContains s pat = true ↔ pat.data <:+: s.data := by
  simp [strContains, listHasSub_iff]

theorem strContains_append_left {a pat : String} (h : strContains a pat = true)
    (b : String) : strContains (a ++ b) pat = true := by
  rw [strContains_iff] at h ⊢
  rw [data_append]
  exact h.trans (List.prefix_append a.data b.data).isInfix

theorem strContains_append_right {b pat : String} (a : String)
    (h : strContains b pat = true) : strContains (a ++ b) pat = true := by
  rw [strContains_iff] at h ⊢
  rw [data_append]
  exact h.trans (List.suffix_append a.data b.data).isInfix

theorem strContains_self (s : String) : strContains s s = true := by
  rw [strContains_iff]

theorem strEndsWith_iff (s pat : String) :
    strEndsWith s pat = true ↔ pat.data <:+ s.data := by
  simp [strEndsWith]

theorem strEndsWith_append {b pat : String} (a : String)
    (h : strEndsWith b pat = true) : strEndsWith (a ++ b) pat = true := by
  rw [strEndsWith_iff] at h ⊢
  rw [data_append]
  exact h.trans (List.suffix_append a.data b.data)

theorem stripFences_eq_self (t : String)
    (h1 : ("```".data.isPrefixOf t.data) = false)
    (h2 : ("```".data.isSuffixOf t.data) = false) :
    stripFences t = t := by
  have hh : ("```html".data.isPrefixOf t.data) = false := by
    rw [← Bool.not_eq_true] at h1 ⊢
    intro hc
    apply h1
    rw [List.isPrefixOf_iff_prefix] at hc ⊢
    exact (List.isPrefixOf_iff_prefix.mp (by rfl :
      ("```".data.isPrefixOf "```html".data) = true)).trans hc
  simp [stripFences, stripFenceStart, stripFenceEnd, hh, h1, h2]

theorem stripFences_of_no_marker (s : String)
    (h : listHasSub "```".data s.data = false) : stripFences s = s := by
  rw [← Bool.not_eq_true] at h
  rw [listHasSub_iff] at h
  apply stripFences_eq_self
  · rw [← Bool.not_eq_true]
    intro hc
    exact h (List.isPrefixOf_iff_prefix.mp hc).isInfix
  · rw [← Bool.not_eq_true]
    intro hc
    exact h (List.isSuffixOf_iff_suffix.mp hc).isInfix

theorem hasSub_backticks_concat_nl (l : List Char)
    (h : listHasSub "```".data l = false) :
    listHasSub "```".data (l ++ ['\n']) = false := by
  rw [← Bool.not_eq_true] at h ⊢
  rw [listHasSub_iff] at h ⊢
  intro hc
  rcases List.infix_concat_iff.mp hc with hsuf | hinf
  · rcases List.suffix_concat_iff.mp hsuf with hnil | ⟨t, ht, _⟩
    · simp at hnil
    · have := congrArg List.reverse ht
      simp at this
  · exact h hinf


theorem generateWithRetry_attempts_le {α : Type} (op : Nat → Except JsError α) :
    ∀ retries attempt delay,
      (generateWithRetry op attempt retries delay).2.1 ≤ retries + 1 := by
  intro retries
  induction retries with
  | zero =>
    intro attempt delay
    rw [generateWithRetry]
    cases h : op attempt <;> simp
  | succ r ih =>
    intro attempt delay
    rw [generateWithRetry]
    cases h : op attempt with
    | ok v => simp
    | error e =>
      dsimp only
      cases hr : isRateLimit e with
      | false =>
        rw [if_neg (by simp [hr])]
        simp
      | true =>
        rw [if_pos rfl]
        have := ih (attempt + 1) (delay * 2)
        dsimp only
        omega

theorem generateWithRetry_sum_le {α : Type} (op : Nat → Except JsError α) :
    ∀ retries attempt delay,
      ((generateWithRetry op attempt retries delay).2.2.sum + delay ≤ delay * 2 ^ retries) := by
  intro retries
  induction retries with
  | zero =>
    intro attempt delay
    rw [generateWithRetry]
    cases h : op attempt <;> simp
  | succ r ih =>
    intro attempt delay
    rw [generateWithRetry]
    have hpow : delay * 2 ^ (r + 1) = delay * 2 * 2 ^ r := by ring
    have hone : 1 ≤ 2 ^ r := Nat.one_le_two_pow
    cases h : op attempt with
    | ok v =>
      dsimp only [List.sum_nil]
      nlinarith
    | error e =>
      dsimp only
      cases hr : isRateLimit e with
      | false =>
        rw [if_neg (by simp [hr])]
        dsimp only [List.sum_nil]
        nlinarith
      | true =>
        rw [if_pos rfl]
        have := ih (attempt + 1) (delay * 2)
        dsimp only [List.sum_cons]
        omega

theorem generateWithRetry_const_error {α : Type} (op : Nat → Except JsError α)
    (e : JsError) (h : ∀ n, op n = Except.error e) :
    ∀ retries attempt delay,
      (generateWithRetry op attempt retries delay).1 = Except.error e := by
  intro retries
  induction retries with
  | zero =>
    intro attempt delay
    rw [generateWithRetry, h attempt]
  | succ r ih =>
    intro attempt delay
    rw [generateWithRetry, h attempt]
    dsimp only
    cases hr : isRateLimit e with
    | false => rw [if_neg (by simp [hr])]
    | true =>
      rw [if_pos rfl]
      exact ih (attempt + 1) (delay * 2)

/-! ### Claims C1-C4 -/


/-! ### Concrete error values used in witnesses and counterexamples -/

/-- A rate-limited failure: HTTP status 429. -/
def e429c : JsError :=
  ⟨some 429, none, none, some "Too Many Requests", none, "stringified"⟩

/-- A plain server failure: HTTP status 500, no quota marker. -/
def e500c : JsError :=
  ⟨some 500, none, none, some "Internal Server Error", none, "stringified"⟩

/-- A service-unavailable failure: HTTP status 503, no quota marker. -/
def e503c : JsError :=
  ⟨some 503, none, none, some "Service Unavailable", none, "stringified"⟩

/-- A client failure: HTTP status 400, no quota marker. -/
def e400c : JsError :=
  ⟨some 400, none, none, some "Bad Request", none, "stringified"⟩

/-- C1: with any retry budget and positive delay, when the first invocation
fails, `generateWithRetry` retries (recording a suspension of the current
delay, doubling the delay, decrementing the budget) exactly when the
failure carries the transient signal (`isRateLimit`: status 429/503 or a
quota/resource-exhaustion message marker) and `retries > 0`; in every
other case it propagates the original failure unchanged with no
suspension. -/
theorem generateWithRetry_transient_step {α : Type} (op : Nat → Except JsError α)
    (e : JsError) (retries delay : Nat) (_hd : 0 < delay)
    (h0 : op 0 = Except.error e) :
    (isRateLimit e = true → 0 < retries →
      generateWithRetry op 0 retries delay =
        ((generateWithRetry op 1 (retries - 1) (delay * 2)).1,
         (generateWithRetry op 1 (retries - 1) (delay * 2)).2.1 + 1,
         delay :: (generateWithRetry op 1 (retries - 1) (delay * 2)).2.2)) ∧
    ((isRateLimit e = false ∨ retries = 0) →
      generateWithRetry op 0 retries delay = (Except.error e, 1, [])) := by
  constructor
  · intro hr hpos
    obtain ⟨r, rfl⟩ : ∃ r, retries = r + 1 := ⟨retries - 1, by omega⟩
    rw [generateWithRetry, h0]
    dsimp only
    rw [if_pos hr]
    simp
  · rintro (hr | rfl)
    · cases retries with
      | zero => rw [generateWithRetry, h0]
      | succ r =>
        rw [generateWithRetry, h0]
        dsimp only
        rw [if_neg (by simp [hr])]
    · rw [generateWithRetry, h0]

/-- C1 witness: a status-500 failure with no quota marker propagates
unchanged with no suspension even though three retries remain. -/
theorem generateWithRetry_transient_step_witness :
    generateWithRetry (fun _ => (Except.error e500c : Except JsError Nat)) 0 3 2000 =
      (Except.error e500c, 1, []) :=
  (generateWithRetry_transient_step (fun _ => Except.error e500c) e500c 3 2000
    (by decide) rfl).2 (Or.inl (by decide))

/-- C2: `generateWithRetry` is total (it is a Lean function) and performs
at most `retries + 1` invocations of the underlying operation; under the
default configuration (`retries = 3`, `delay = 2000`) it performs at most
4 invocations and suspends for at most 2000 + 4000 + 8000 = 14000 ms in
total. -/
theorem generateWithRetry_bounded {α : Type} (op : Nat → Except JsError α)
    (attempt retries delay : Nat) :
    (generateWithRetry op attempt retries delay).2.1 ≤ retries + 1 ∧
    (generateWithRetry op attempt 3 2000).2.1 ≤ 4 ∧
    (generateWithRetry op attempt 3 2000).2.2.sum ≤ 14000 := by
  refine ⟨generateWithRetry_attempts_le op retries attempt delay,
    generateWithRetry_attempts_le op 3 attempt 2000, ?_⟩
  have h := generateWithRetry_sum_le op 3 attempt 2000
  norm_num at h
  omega

/-- C3: if the operation fails with a status-429 error on the first two
attempts and succeeds on the third, the default configuration returns the
third attempt's success after exactly two suspensions of 2000 ms and
4000 ms, having invoked the operation three times. -/
theorem generateWithRetry_429_twice_then_ok {α : Type} (op : Nat → Except JsError α)
    (e : JsError) (v : α) (hs : e.status = some 429)
    (h0 : op 0 = Except.error e) (h1 : op 1 = Except.error e)
    (h2 : op 2 = Except.ok v) :
    generateWithRetry op 0 3 2000 = (Except.ok v, 3, [2000, 4000]) := by
  have hr : isRateLimit e = true := by
    simp [isRateLimit, effStatus, jsOrN, hs]
  have g2 : generateWithRetry op 2 1 8000 = (Except.ok v, 1, []) := by
    rw [generateWithRetry, h2]
  have g1 : generateWithRetry op 1 2 4000 = (Except.ok v, 2, [4000]) := by
    rw [generateWithRetry, h1]
    dsimp only
    rw [if_pos hr]
    norm_num
    rw [g2]
    simp
  rw [generateWithRetry, h0]
  dsimp only
  rw [if_pos hr]
  norm_num
  rw [g1]
  simp

/-- C3 witness: the concrete scenario with a 429 failure on attempts one
and two and success (value 7) on attempt three. -/
theorem generateWithRetry_429_twice_then_ok_witness :
    e429c.status = some 429 ∧
    generateWithRetry
      (fun n => if n < 2 then Except.error e429c else Except.ok (7 : Nat))
      0 3 2000 = (Except.ok 7, 3, [2000, 4000]) :=
  ⟨rfl, generateWithRetry_429_twice_then_ok _ e429c 7 rfl rfl rfl rfl⟩

/-- C4 counterexample: a status-503 failure keeps carrying the transient
signal, exhausts the whole retry budget (4 invocations, suspensions
2000/4000/8000 ms), and is then surfaced unchanged; the caller-side
classifier `isQuotaError` reports `false` for it, exactly as it does for
a status-400 failure that was never retried — so the surfaced failure is
not distinguishable as a retry-exhausted quota failure. -/
theorem quota_exhaustion_not_distinguishable :
    isRateLimit e503c = true ∧
    generateWithRetry (fun _ => (Except.error e503c : Except JsError Nat)) 0 3 2000 =
      (Except.error e503c, 4, [2000, 4000, 8000]) ∧
    isQuotaError e503c = false ∧
    isRateLimit e400c = false ∧
    generateWithRetry (fun _ => (Except.error e400c : Except JsError Nat)) 0 3 2000 =
      (Except.error e400c, 1, []) ∧
    isQuotaError e400c = false :=
  ⟨by decide, by rfl, by decide, by decide, by rfl, by decide⟩

/-- C4 (amended): when every attempt fails with the same error, the
failure surfaced after exhausting any retry budget is the original error
object unchanged; the caller can recognise it as a quota failure exactly
via its own content (in particular a status-429 error is classified as a
quota failure by `handleApiError`), not via any mark of having been
retried. -/
theorem generateWithRetry_exhaust_propagates {α : Type} (op : Nat → Except JsError α)
    (e : JsError) (retries attempt delay : Nat)
    (h : ∀ n, op n = Except.error e) :
    (generateWithRetry op attempt retries delay).1 = Except.error e ∧
    (e.status = some 429 → isQuotaError e = true) := by
  refine ⟨generateWithRetry_const_error op e h retries attempt delay, ?_⟩
  intro hs
  simp [isQuotaError, hs]

/-- C4 witness: the always-429 operation at the default configuration. -/
theorem generateWithRetry_exhaust_propagates_witness :
    (generateWithRetry (fun _ => (Except.error e429c : Except JsError Nat)) 0 3 2000).1 =
      Except.error e429c ∧ isQuotaError e429c = true :=
  ⟨(generateWithRetry_exhaust_propagates (fun _ => Except.error e429c) e429c 3 0 2000
      (fun _ => rfl)).1,
   (generateWithRetry_exhaust_propagates (fun _ => (Except.error e429c : Except JsError Nat))
      e429c 3 0 2000 (fun _ => rfl)).2 rfl⟩

/-! ### Claims C5-C6 -/


/-- C5 counterexample: the normalizer is not idempotent. One pass over
six backticks followed by `x` strips a leading and a trailing marker and
leaves a string that still begins with a fence marker, which a second
pass removes. -/
theorem stripFences_not_idempotent :
    ¬ stripFences (stripFences "``````x") = stripFences "``````x" := by
  decide

/-- C5 (amended): the normalizer is idempotent on every string whose
normal form no longer begins or ends with a fence marker: a second pass
then returns the first pass's output unchanged. -/
theorem stripFences_idempotent_of_normalized (s : String)
    (h1 : ("```".data.isPrefixOf (stripFences s).data) = false)
    (h2 : ("```".data.isSuffixOf (stripFences s).data) = false) :
    stripFences (stripFences s) = stripFences s :=
  stripFences_eq_self (stripFences s) h1 h2

/-- C5 witness: a well-formed fenced document normalizes to a string with
no residual markers, on which normalization is idempotent. -/
theorem stripFences_idempotent_of_normalized_witness :
    stripFences (stripFences "```html\nhello\n```") =
      stripFences "```html\nhello\n```" :=
  stripFences_idempotent_of_normalized "```html\nhello\n```" (by decide) (by decide)

/-- C6 counterexample: on the fenced document of the scenario the
normalizer keeps the newline that preceded the closing fence, so it does
not return exactly the document body. -/
theorem stripFences_keeps_trailing_newline :
    stripFences "```html\n<!DOCTYPE html>\n```" = "<!DOCTYPE html>\n" ∧
    ("<!DOCTYPE html>\n" : String) ≠ "<!DOCTYPE html>" :=
  ⟨by decide, by decide⟩

/-- C6 (amended): for a raw response `"```html" ++ "\n" ++ body ++ "\n"
++ "```"` whose body is nonempty, does not start with whitespace or a
backtick, and contains no fence marker, the normalizer returns
`body ++ "\n"` (the body plus the retained newline), which contains no
fence markers; and any input containing no fence marker at all is
returned unchanged. -/
theorem stripFences_fenced_document (c : Char) (cs : List Char)
    (hsp : isJsSpace c = false) (hbt : c ≠ '`')
    (hsub : listHasSub "```".data (c :: cs) = false) :
    stripFences ("```html\n" ++ String.mk (c :: cs) ++ "\n```") =
      String.mk (c :: cs) ++ "\n" ∧
    listHasSub "```".data (String.mk (c :: cs) ++ "\n").data = false ∧
    (∀ s : String, listHasSub "```".data s.data = false → stripFences s = s) := by
  refine ⟨?_, ?_, fun s h => stripFences_of_no_marker s h⟩
  · have e1 : ("```html\n" ++ String.mk (c :: cs) ++ "\n```").data =
        "```html".data ++ ('\n' :: c :: (cs ++ "\n```".data)) := by
      rfl
    have hpre : ("```html".data.isPrefixOf
        ("```html\n" ++ String.mk (c :: cs) ++ "\n```").data) = true := by
      rw [e1]
      simp [List.isPrefixOf_iff_prefix]
    have hbc : ('`' == c) = false := by
      simp
      exact fun hc => hbt hc.symm
    have h1 : stripFenceStart "```html" ("```html\n" ++ String.mk (c :: cs) ++ "\n```") =
        String.mk (c :: (cs ++ "\n```".data)) := by
      unfold stripFenceStart
      rw [if_pos hpre, e1, List.drop_left]
      rw [List.dropWhile_cons_of_pos (by decide), List.dropWhile_cons_of_neg (by simp [hsp])]
    have hnp : ("```".data.isPrefixOf (c :: (cs ++ "\n```".data))) = false := by
      have e3 : "```".data = '`' :: '`' :: '`' :: [] := rfl
      rw [e3]
      simp [List.isPrefixOf, hbc]
    have h2 : stripFenceStart "```" (String.mk (c :: (cs ++ "\n```".data))) =
        String.mk (c :: (cs ++ "\n```".data)) := by
      unfold stripFenceStart
      rw [if_neg (by simp [hnp])]
    have e2 : (c :: (cs ++ "\n```".data)) = (c :: (cs ++ ['\n'])) ++ "```".data := by
      simp
    have hsuf : ("```".data.isSuffixOf
        ((String.mk (c :: (cs ++ "\n```".data))).data)) = true := by
      show ("```".data.isSuffixOf (c :: (cs ++ "\n```".data))) = true
      rw [e2, List.isSuffixOf_iff_suffix]
      exact List.suffix_append _ _
    have h3 : stripFenceEnd (String.mk (c :: (cs ++ "\n```".data))) =
        String.mk (c :: cs) ++ "\n" := by
      unfold stripFenceEnd
      rw [if_pos hsuf]
      show String.mk ((c :: (cs ++ "\n```".data)).take
        ((c :: (cs ++ "\n```".data)).length - 3)) = String.mk (c :: (cs ++ ['\n']))
      rw [e2, List.take_left' (by simp)]
    rw [stripFences, h1, h2, h3]
  · have e4 : (String.mk (c :: cs) ++ "\n").data = (c :: cs) ++ ['\n'] := rfl
    rw [e4]
    exact hasSub_backticks_concat_nl _ hsub

/-- C6 witness: the scenario body `<!DOCTYPE html>`. -/
theorem stripFences_fenced_document_witness :
    stripFences ("```html\n" ++ String.mk ('<' :: "!DOCTYPE html>".data) ++ "\n```") =
      String.mk ('<' :: "!DOCTYPE html>".data) ++ "\n" :=
  (stripFences_fenced_document '<' "!DOCTYPE html>".data
    (by decide) (by decide) (by decide)).1

/-! ### Claims C7-C10 -/


/-- C7: for a request carrying one attachment whose display name is
"My Photo.png", the constructed payload references the virtual path
`/assets/uploads/My_Photo.png` (the space replaced by an underscore,
alphanumerics, dot and extension preserved by the sanitizer
`[^a-zA-Z0-9.-] -> _`) and pairs it with the instruction to substitute
the attachment's base64 data wherever that path is referenced. -/
theorem constructedPrompt_virtual_path (prompt mime dat : String) :
    virtualPath "My Photo.png" = "/assets/uploads/My_Photo.png" ∧
    strContains (constructedPrompt prompt [⟨"My Photo.png", mime, dat⟩])
      "Virtual Path: /assets/uploads/My_Photo.png\n" = true ∧
    strContains (constructedPrompt prompt [⟨"My Photo.png", mime, dat⟩])
      "INSTRUCTION: Wherever the code would logically use \"/assets/uploads/My_Photo.png\" (or if the user asked for this file), insert the DATA string above.\n" = true := by
  refine ⟨by decide, ?_, ?_⟩
  · unfold constructedPrompt
    rw [if_pos (by simp)]
    apply strContains_append_left
    apply strContains_append_right
    rw [assetBlocks, assetBlocks]
    apply strContains_append_left
    unfold assetBlock
    apply strContains_append_left
    apply strContains_append_left
    apply strContains_append_right
    have hv : ("Virtual Path: " ++ virtualPath (⟨"My Photo.png", mime, dat⟩ : AssetFile).name ++ "\n") =
        "Virtual Path: /assets/uploads/My_Photo.png\n" := by
      show ("Virtual Path: " ++ virtualPath "My Photo.png" ++ "\n") =
        "Virtual Path: /assets/uploads/My_Photo.png\n"
      decide
    rw [hv]
    exact strContains_self _
  · unfold constructedPrompt
    rw [if_pos (by simp)]
    apply strContains_append_left
    apply strContains_append_right
    rw [assetBlocks, assetBlocks]
    apply strContains_append_left
    unfold assetBlock
    apply strContains_append_right
    have hv : ("INSTRUCTION: Wherever the code would logically use \"" ++
        virtualPath (⟨"My Photo.png", mime, dat⟩ : AssetFile).name ++
        "\" (or if the user asked for this file), insert the DATA string above.\n") =
        "INSTRUCTION: Wherever the code would logically use \"/assets/uploads/My_Photo.png\" (or if the user asked for this file), insert the DATA string above.\n" := by
      show ("INSTRUCTION: Wherever the code would logically use \"" ++
        virtualPath "My Photo.png" ++
        "\" (or if the user asked for this file), insert the DATA string above.\n") = _
      decide
    rw [hv]
    exact strContains_self _

/-- C8: the constructed payload always ends with a terminal instruction
telling the model to produce the output now: part_001's builder always
appends "Generate the fully functional HTML application now.", and
part_000's builder ends with "Generate a web interface response." (with
attachments) or "Generate the web interface for this request." (without). -/
theorem prompt_terminal_instruction (prompt : String) (assets : List AssetFile)
    (images : List ImagePart) :
    strEndsWith (constructedPrompt prompt assets)
      "Generate the fully functional HTML application now." = true ∧
    (0 < images.length →
      strEndsWith (finalPrompt prompt images)
        "Generate a web interface response." = true) ∧
    (images.length = 0 →
      strEndsWith (finalPrompt prompt images)
        "Generate the web interface for this request." = true) := by
  refine ⟨?_, ?_, ?_⟩
  · unfold constructedPrompt
    apply strEndsWith_append
    decide
  · intro h
    unfold finalPrompt
    rw [if_pos h]
    apply strEndsWith_append
    decide
  · intro h
    unfold finalPrompt
    rw [if_neg (by omega)]
    apply strEndsWith_append
    decide

/-- C8 witness: concrete prompts with and without attachments. -/
theorem prompt_terminal_instruction_witness :
    strEndsWith (constructedPrompt "show me the news" [])
      "Generate the fully functional HTML application now." = true ∧
    strEndsWith (finalPrompt "what is this" [⟨"QUJD", "image/png"⟩])
      "Generate a web interface response." = true ∧
    strEndsWith (finalPrompt "show me the news" ([] : List ImagePart))
      "Generate the web interface for this request." = true :=
  ⟨(prompt_terminal_instruction "show me the news" [] []).1,
   (prompt_terminal_instruction "what is this" [] [⟨"QUJD", "image/png"⟩]).2.1 (by decide),
   (prompt_terminal_instruction "show me the news" [] []).2.2 rfl⟩

/-- C9: if the remote call succeeds but its text field is absent or
empty, `bringToLife` does not fail and returns the placeholder HTML
comment "<!-- Failed to generate content -->" (which the fence stripper
leaves unchanged). -/
theorem bringToLife_empty_text_placeholder (respText : Option String)
    (h : respText = none ∨ respText = some "") :
    bringToLifeText respText = "<!-- Failed to generate content -->" := by
  rcases h with rfl | rfl <;> rfl

/-- C9 witness: an absent text field. -/
theorem bringToLife_empty_text_placeholder_witness :
    bringToLifeText none = "<!-- Failed to generate content -->" :=
  bringToLife_empty_text_placeholder none (Or.inl rfl)

/-- C10: if the remote call succeeds but its text field is absent or
empty, `refineCode` does not fail and falls back to the current HTML with
the fence stripping applied; in particular it returns `currentHtml`
exactly unchanged whenever `currentHtml` carries no leading or trailing
fence marker. -/
theorem refineCode_empty_text_fallback (currentHtml : String) (respText : Option String)
    (h : respText = none ∨ respText = some "") :
    refineCodeText currentHtml respText = stripFences currentHtml ∧
    (("```".data.isPrefixOf currentHtml.data) = false →
     ("```".data.isSuffixOf currentHtml.data) = false →
     refineCodeText currentHtml respText = currentHtml) := by
  have hb : refineCodeText currentHtml respText = stripFences currentHtml := by
    rcases h with rfl | rfl <;> rfl
  exact ⟨hb, fun h1 h2 => hb.trans (stripFences_eq_self currentHtml h1 h2)⟩

/-- C10 witness: an empty text field with a fence-free current document. -/
theorem refineCode_empty_text_fallback_witness :
    refineCodeText "<p>hi</p>" (some "") = "<p>hi</p>" :=
  (refineCode_empty_text_fallback "<p>hi</p>" (some "") (Or.inr rfl)).2
    (by decide) (by decide)


end HelloWorld
